import Mathlib

/-!
Verification of the NoteMind chat/session orchestration flow.

This file gives a shallow embedding of the chat-session / chat-message state
management implemented in `src/pages/Index.tsx` and of the audio-job polling
effect of the note editor, and proves the testable properties stated in the
specification against that embedding.

Modelling conventions:
* ISO timestamp strings are modelled as natural numbers ordered
  chronologically (the code only compares them, via the database `lt`
  filter, `order by timestamp`, and `new Date(..).getTime()`).
* Optional TypeScript fields (`isError?`, `attachedDocumentIds?`, ...) are
  modelled as `Option`; JavaScript string falsiness (null / empty string)
  is modelled explicitly where the code relies on it.
* Remote calls (database reads and writes, the AI edge function) are
  modelled by passing their observed results as explicit parameters; each
  React `setX` state update becomes a field update of an explicit record.
-/

namespace NoteMind

/-- Pagination constant from Index.tsx: sessions page size. -/
def CHAT_SESSIONS_PER_PAGE : Nat := 10

/-- Pagination constant from Index.tsx: messages page size. -/
def CHAT_MESSAGES_PER_PAGE : Nat := 20

/-- In-memory chat message (the camelCase `Message` interface). -/
structure Message where
  id : String
  content : String
  role : String
  timestamp : Nat
  isError : Option Bool
  attachedDocumentIds : Option (List String)
  attachedNoteIds : Option (List String)
  imageUrl : Option String
  imageMimeType : Option String
  originalUserMessageContent : Option String
deriving Repr, DecidableEq

/-- Database row of the `chat_messages` table (snake_case on the wire). -/
structure MessageRow where
  id : String
  session_id : String
  user_id : String
  content : String
  role : String
  timestamp : Nat
  is_error : Bool
  attached_document_ids : List String
  attached_note_ids : List String
  image_url : Option String
  image_mime_type : Option String
deriving Repr, DecidableEq

/-- Chat session record (the `ChatSession` interface of Index.tsx). -/
structure ChatSession where
  id : String
  title : String
  created_at : Nat
  updated_at : Nat
  last_message_at : Nat
  document_ids : List String
deriving Repr, DecidableEq

/-- Document entity, restricted to the fields read by `buildRichContext`
and `handleSubmit`. -/
structure AppDocument where
  id : String
  title : String
  file_name : String
  type : String
  file_url : String
  content_extracted : Option String
  processing_status : Option String
deriving Repr, DecidableEq

/-- Note entity, restricted to the fields read by `buildRichContext`. -/
structure Note where
  id : String
  title : String
  category : String
  content : String
  aiSummary : Option String
  tags : Option (List String)
deriving Repr, DecidableEq

/-- Component state of Index.tsx that the chat orchestration reads and
writes (one field per React state hook involved in the claims). -/
structure AppState where
  chatMessages : List Message
  chatSessions : List ChatSession
  activeChatSessionId : Option String
  selectedDocumentIds : List String
  chatSessionsLoadedCount : Nat
  hasMoreChatSessions : Bool
  hasMoreMessages : Bool
  isAILoading : Bool
  isSubmittingUserMessage : Bool
deriving Repr, DecidableEq

/-- Initial values of the state hooks of Index.tsx. -/
def initialAppState : AppState :=
  { chatMessages := []
    chatSessions := []
    activeChatSessionId := none
    selectedDocumentIds := []
    chatSessionsLoadedCount := CHAT_SESSIONS_PER_PAGE
    hasMoreChatSessions := true
    hasMoreMessages := true
    isAILoading := false
    isSubmittingUserMessage := false }

/-- JavaScript truthiness of a nullable string: `null`/`undefined` and the
empty string are falsy. -/
def optTruthy (o : Option String) : Bool :=
  match o with
  | some s => !(s == "")
  | none => false

/-- The snake_case to camelCase row formatting done in `loadSessionMessages`
and `handleLoadOlderChatMessages`. -/
def formatMessage (msg : MessageRow) : Message :=
  { id := msg.id
    content := msg.content
    role := msg.role
    timestamp := msg.timestamp
    isError := some msg.is_error
    attachedDocumentIds := some msg.attached_document_ids
    attachedNoteIds := some msg.attached_note_ids
    imageUrl := msg.image_url
    imageMimeType := msg.image_mime_type
    originalUserMessageContent := none }

/-- The `loadChatSessions` callback. `requestedCount` is the
`chatSessionsLoadedCount` value captured by the callback closure: the
query range requests that many rows and the same value is compared with
the returned length to set the "has more" flag. A fetch error is caught
and leaves the local state unchanged (only a toast is shown). -/
def loadChatSessions (user : Option String) (requestedCount : Nat)
    (fetchResult : Except String (List ChatSession)) (st : AppState) : AppState :=
  match user with
  | none => st
  | some _ =>
    match fetchResult with
    | Except.ok data =>
      { st with chatSessions := data,
                hasMoreChatSessions := data.length == requestedCount }
    | Except.error _ => st

/-- The `loadSessionMessages` callback for a session id. `fetchResult` is
the outcome of the `chat_messages` query (ordered newest first, limited to
`CHAT_MESSAGES_PER_PAGE`). On success the rows are formatted and reversed
to chronological order; on error the message buffer is reset to `[]`. -/
def loadSessionMessages (user : Option String) (sessionId : String)
    (fetchResult : Except String (List MessageRow)) (st : AppState) : AppState :=
  match user with
  | none => st
  | some _ =>
    match fetchResult with
    | Except.ok data =>
      { st with chatMessages := (data.map formatMessage).reverse,
                hasMoreMessages := data.length == CHAT_MESSAGES_PER_PAGE }
    | Except.error _ => { st with chatMessages := [] }

/-- The `handleLoadOlderChatMessages` callback. `fetchOlder ts` is the
outcome of the query for rows with `timestamp < ts` (ordered newest
first, limited to `CHAT_MESSAGES_PER_PAGE`); the cutoff passed is the
timestamp of the first (oldest) loaded message. On success the formatted
batch is reversed and prepended; on error the state is unchanged. -/
def handleLoadOlderChatMessages (user : Option String)
    (fetchOlder : Nat → Except String (List MessageRow)) (st : AppState) : AppState :=
  match st.activeChatSessionId, user, st.chatMessages with
  | some _, some _, oldestMessage :: _ =>
    match fetchOlder oldestMessage.timestamp with
    | Except.ok data =>
      { st with chatMessages := (data.map formatMessage).reverse ++ st.chatMessages,
                hasMoreMessages := data.length == CHAT_MESSAGES_PER_PAGE }
    | Except.error _ => st
  | _, _, _ => st

/-- Document-content truncation used in `buildRichContext`: inputs longer
than 2000 characters are cut to the first 2000 characters followed by an
ellipsis marker. -/
def truncate2000 (s : String) : String :=
  if s.length > 2000 then s.take 2000 ++ "..." else s

/-- Note-content truncation used in `buildRichContext` (bound 1500). -/
def truncate1500 (s : String) : String :=
  if s.length > 1500 then s.take 1500 ++ "..." else s

/-- The text block appended to the context for one selected document. -/
def docSection (doc : AppDocument) : String :=
  let typeLine : String :=
    if doc.type = "image" then "Type: Image\n"
    else if doc.type = "text" then "Type: Text Document\n"
    else ""
  let contentLine : String :=
    if doc.type = "image" ∧ optTruthy doc.content_extracted then
      "Content (Image Description): " ++ truncate2000 (doc.content_extracted.getD "") ++ "\n"
    else if optTruthy doc.content_extracted then
      "Content: " ++ truncate2000 (doc.content_extracted.getD "") ++ "\n"
    else if doc.type = "image" ∧ doc.processing_status ≠ some "completed" then
      "Content: Image processing "
        ++ (if optTruthy doc.processing_status then doc.processing_status.getD "" else "pending")
        ++ ". No extracted text yet.\n"
    else if doc.type = "image" ∧ doc.processing_status = some "completed" then
      "Content: Image analysis completed, but no text or detailed description was extracted.\n"
    else
      "Content: No content extracted or available.\n"
  "Title: " ++ doc.title ++ "\n" ++ "File: " ++ doc.file_name ++ "\n"
    ++ typeLine ++ contentLine ++ "\n"

/-- The text block appended to the context for one selected note. -/
def noteSection (note : Note) : String :=
  let contentLine : String :=
    if note.content ≠ "" then "Content: " ++ truncate1500 note.content ++ "\n" else ""
  let summaryLine : String :=
    if optTruthy note.aiSummary then "AI Summary: " ++ note.aiSummary.getD "" ++ "\n" else ""
  let tagsLine : String :=
    if (note.tags.getD []).length > 0 then
      "Tags: " ++ String.intercalate ", " (note.tags.getD []) ++ "\n"
    else ""
  "Title: " ++ note.title ++ "\n" ++ "Category: " ++ note.category ++ "\n"
    ++ contentLine ++ summaryLine ++ tagsLine ++ "\n"

/-- The `buildRichContext` callback of Index.tsx: concatenates a
`DOCUMENTS:` section for the selected documents and a `NOTES:` section for
the selected notes. -/
def buildRichContext (documentIdsToInclude noteIdsToInclude : List String)
    (allDocuments : List AppDocument) (allNotes : List Note) : String :=
  let selectedDocs := allDocuments.filter (fun doc => documentIdsToInclude.contains doc.id)
  let selectedNotes := allNotes.filter (fun note => noteIdsToInclude.contains note.id)
  let docsPart : String :=
    if selectedDocs.length > 0 then
      "DOCUMENTS:\n" ++ String.join (selectedDocs.map docSection)
    else ""
  let notesPart : String :=
    if selectedNotes.length > 0 then
      "NOTES:\n" ++ String.join (selectedNotes.map noteSection)
    else ""
  docsPart ++ notesPart

/-- Outcome of the `gemini-chat` edge function invocation as observed by
`_getAIResponse`: either the client reported an error, or it returned a
body whose `response` field is modelled by a string (the empty string
models a missing/empty completion, which the code treats as a failure). -/
inductive InvokeOutcome where
  | failure (message : String)
  | success (response : String)
deriving Repr, DecidableEq

/-- External results consumed by one `_getAIResponse` invocation: the AI
invocation outcome, the results of the `chat_messages` update/insert
writes, the fresh id `crypto.randomUUID()` would produce for an error
message, and the current wall-clock time used for `new Date()`. -/
structure AIEnv where
  invokeOutcome : InvokeOutcome
  updateDbOk : Bool
  insertResult : Option (String × Nat)
  freshErrorId : String
  now : Nat
deriving Repr, DecidableEq

/-- Result of running a routine that may invoke the AI function: the final
component state, and, when the remote AI invocation was performed, the
values of (`isAILoading`, `isSubmittingUserMessage`) at that moment. -/
structure AIRunResult where
  state : AppState
  invokedWith : Option (Bool × Bool)
deriving Repr, DecidableEq

/-- JavaScript `s || dflt` on an error-message string. -/
def messageOrUnknown (s : String) : String :=
  if s = "" then "Unknown error" else s

/-- The `setChatMessages(prev => prev.map(...))` pattern used by
`_getAIResponse`, `handleRegenerateResponse` and `handleRetryFailedMessage`:
replace content, timestamp and error flag of the message with the target
id, leaving every other message and every other field unchanged. -/
def updateTargetMessage (targetId newContent : String) (newTimestamp : Nat)
    (newIsError : Option Bool) (msgs : List Message) : List Message :=
  msgs.map (fun msg =>
    if msg.id = targetId then
      { msg with content := newContent, timestamp := newTimestamp, isError := newIsError }
    else msg)

/-- The client-side re-sort of the session list by `last_message_at`
descending (a stable sort, as JavaScript `Array.prototype.sort`). -/
def sortSessionsByLastMessageDesc (sessions : List ChatSession) : List ChatSession :=
  List.insertionSort (fun a b => b.last_message_at ≤ a.last_message_at) sessions

/-- The `_getAIResponse` callback. `currentUser` is the authenticated user
(or `none`), `sessionId` the session (the empty string modelling a falsy
id), `aiMessageIdToUpdate` distinguishes "update in place" mode (`some`)
from "new message" mode (`none`). The remote results are in `env`. -/
def getAIResponse (userMessageContent : String) (currentUser : Option String)
    (sessionId : String) (attachedDocumentIds attachedNoteIds : List String)
    (aiMessageIdToUpdate : Option String) (env : AIEnv) (st : AppState) : AIRunResult :=
  if currentUser = none ∨ sessionId = "" then
    { state := st, invokedWith := none }
  else
    let st1 : AppState := { st with isAILoading := true }
    let flagsAtInvoke : Bool × Bool := (st1.isAILoading, st1.isSubmittingUserMessage)
    let tryResult : Except String AppState :=
      match env.invokeOutcome with
      | InvokeOutcome.failure m => Except.error ("AI service error: " ++ m)
      | InvokeOutcome.success resp =>
        if resp = "" then Except.error "Empty response from AI service"
        else
          match aiMessageIdToUpdate with
          | some aiMessageId =>
            if env.updateDbOk then
              Except.ok { st1 with
                chatMessages := updateTargetMessage aiMessageId resp env.now (some false)
                  st1.chatMessages }
            else Except.error "Failed to save AI response"
          | none =>
            match env.insertResult with
            | some newIdTimestamp =>
              let newAiMessage : Message :=
                { id := newIdTimestamp.1
                  content := resp
                  role := "assistant"
                  timestamp := newIdTimestamp.2
                  isError := some false
                  attachedDocumentIds := none
                  attachedNoteIds := none
                  imageUrl := none
                  imageMimeType := none
                  originalUserMessageContent := none }
              Except.ok { st1 with chatMessages := st1.chatMessages ++ [newAiMessage] }
            | none => Except.error "Failed to save AI response"
    let st2 : AppState :=
      match tryResult with
      | Except.ok stOk =>
        { stOk with chatSessions :=
            sortSessionsByLastMessageDesc (stOk.chatSessions.map (fun session =>
              if session.id = sessionId then
                { session with last_message_at := env.now,
                               document_ids := attachedDocumentIds }
              else session)) }
      | Except.error errText =>
        match aiMessageIdToUpdate with
        | some aiMessageId =>
          let failText :=
            "Failed to regenerate response: " ++ messageOrUnknown errText ++ ". Please try again."
          { st1 with
            chatMessages := updateTargetMessage aiMessageId failText env.now (some true) st1.chatMessages }
        | none =>
          let apologyText :=
            "I\x27m sorry, I couldn\x27t generate a response: " ++ messageOrUnknown errText ++ ". Please try again."
          let errorMessage : Message :=
            { id := env.freshErrorId
              content := apologyText
              role := "assistant"
              timestamp := env.now
              isError := some true
              attachedDocumentIds := none
              attachedNoteIds := none
              imageUrl := none
              imageMimeType := none
              originalUserMessageContent := some userMessageContent }
          { st1 with chatMessages := st1.chatMessages ++ [errorMessage] }
    { state := { st2 with isAILoading := false }, invokedWith := some flagsAtInvoke }

/-- Failure of the AI call in "new message" mode: the invocation client
reported an error, the completion was empty, or the insert of the new
assistant row failed (a thrown error). -/
def newMessageCallFails (env : AIEnv) : Prop :=
  match env.invokeOutcome with
  | InvokeOutcome.failure _ => True
  | InvokeOutcome.success resp => resp = "" ∨ env.insertResult = none

/-- The reverse-order lookup of the most recent assistant message used
by `handleRegenerateResponse`. -/
def lastAssistant (msgs : List Message) : Option Message :=
  msgs.reverse.find? (fun msg => msg.role == "assistant")

/-- The corresponding lookup of the most recent user message. -/
def lastUser (msgs : List Message) : Option Message :=
  msgs.reverse.find? (fun msg => msg.role == "user")

/-- The lookup of the most recent user message with the given content,
used by `handleRetryFailedMessage`. -/
def lastUserWithContent (content : String) (msgs : List Message) : Option Message :=
  msgs.reverse.find? (fun msg => msg.role == "user" && msg.content == content)

/-- The `handleRegenerateResponse` callback: finds the most recent user
and assistant messages, puts a temporary "AI is thinking..." body into the
target assistant message, and re-runs `_getAIResponse` in update mode
with the target excluded from history. -/
def handleRegenerateResponse (lastUserMessageContent : String) (user : Option String)
    (activeChatSessionId : Option String) (env : AIEnv) (st : AppState) : AIRunResult :=
  match user, activeChatSessionId with
  | some _, some sessionId =>
    match lastAssistant st.chatMessages, lastUser st.chatMessages with
    | some lastAssistantMessage, some lastUserMessage =>
      let thinking :=
        updateTargetMessage lastAssistantMessage.id "AI is thinking..." env.now (some false)
          st.chatMessages
      let st1 := { st with chatMessages := thinking }
      getAIResponse lastUserMessageContent user sessionId
        (lastUserMessage.attachedDocumentIds.getD [])
        (lastUserMessage.attachedNoteIds.getD [])
        (some lastAssistantMessage.id) env st1
    | _, _ => { state := st, invokedWith := none }
  | _, _ => { state := st, invokedWith := none }

/-- The `handleRetryFailedMessage` callback: finds the user message whose
content matches the failed turn, puts "AI is thinking..." into the failed
assistant message, and re-runs `_getAIResponse` in update mode. -/
def handleRetryFailedMessage (originalUserMessageContent failedAiMessageId : String)
    (user : Option String) (activeChatSessionId : Option String) (env : AIEnv)
    (st : AppState) : AIRunResult :=
  match user, activeChatSessionId with
  | some _, some sessionId =>
    match lastUserWithContent originalUserMessageContent st.chatMessages with
    | some lastUserMessage =>
      let thinking :=
        updateTargetMessage failedAiMessageId "AI is thinking..." env.now (some false)
          st.chatMessages
      let st1 := { st with chatMessages := thinking }
      getAIResponse originalUserMessageContent user sessionId
        (lastUserMessage.attachedDocumentIds.getD [])
        (lastUserMessage.attachedNoteIds.getD [])
        (some failedAiMessageId) env st1
    | none => { state := st, invokedWith := none }
  | _, _ => { state := st, invokedWith := none }

/-- Equality of all message fields other than content, timestamp and the
error flag. -/
def sameImmutableFields (a b : Message) : Prop :=
  a.id = b.id ∧ a.role = b.role ∧ a.attachedDocumentIds = b.attachedDocumentIds ∧
  a.attachedNoteIds = b.attachedNoteIds ∧ a.imageUrl = b.imageUrl ∧
  a.imageMimeType = b.imageMimeType ∧
  a.originalUserMessageContent = b.originalUserMessageContent

/-- Frame property between two message buffers: same length, every
position keeps its id / role / attachment / image fields, and every
position whose id differs from the target is byte-identical. -/
def onlyTargetChanged (targetId : String) (old new : List Message) : Prop :=
  new.length = old.length ∧
  ∀ i : Nat, ∀ ho : i < old.length, ∀ hn : i < new.length,
    sameImmutableFields (new.get ⟨i, hn⟩) (old.get ⟨i, ho⟩) ∧
    ((old.get ⟨i, ho⟩).id ≠ targetId → new.get ⟨i, hn⟩ = old.get ⟨i, ho⟩)

theorem sameImmutableFields_refl (a : Message) : sameImmutableFields a a :=
  ⟨rfl, rfl, rfl, rfl, rfl, rfl, rfl⟩

theorem sameImmutableFields_trans {a b c : Message}
    (h1 : sameImmutableFields a b) (h2 : sameImmutableFields b c) :
    sameImmutableFields a c :=
  ⟨h1.1.trans h2.1, h1.2.1.trans h2.2.1, h1.2.2.1.trans h2.2.2.1,
   h1.2.2.2.1.trans h2.2.2.2.1, h1.2.2.2.2.1.trans h2.2.2.2.2.1,
   h1.2.2.2.2.2.1.trans h2.2.2.2.2.2.1, h1.2.2.2.2.2.2.trans h2.2.2.2.2.2.2⟩

theorem onlyTargetChanged_refl (targetId : String) (l : List Message) :
    onlyTargetChanged targetId l l :=
  ⟨rfl, fun _ _ _ => ⟨sameImmutableFields_refl _, fun _ => rfl⟩⟩

theorem onlyTargetChanged_update (targetId newContent : String) (ts : Nat)
    (e : Option Bool) (l : List Message) :
    onlyTargetChanged targetId l (updateTargetMessage targetId newContent ts e l) := by
  refine ⟨by simp [updateTargetMessage], ?_⟩
  intro i ho hn
  have hget : (updateTargetMessage targetId newContent ts e l).get ⟨i, hn⟩ =
      (fun msg => if msg.id = targetId then
        { msg with content := newContent, timestamp := ts, isError := e }
      else msg) (l.get ⟨i, ho⟩) := by
    simp [updateTargetMessage]
  rw [hget]
  dsimp only
  by_cases h : (l.get ⟨i, ho⟩).id = targetId
  · rw [if_pos h]
    exact ⟨sameImmutableFields_refl _, fun hne => absurd h hne⟩
  · rw [if_neg h]
    exact ⟨sameImmutableFields_refl _, fun _ => rfl⟩

theorem onlyTargetChanged_trans {targetId : String} {l1 l2 l3 : List Message}
    (h12 : onlyTargetChanged targetId l1 l2) (h23 : onlyTargetChanged targetId l2 l3) :
    onlyTargetChanged targetId l1 l3 := by
  obtain ⟨hlen12, hpt12⟩ := h12
  obtain ⟨hlen23, hpt23⟩ := h23
  refine ⟨hlen23.trans hlen12, ?_⟩
  intro i ho hn
  have hm : i < l2.length := by omega
  obtain ⟨same12, eq12⟩ := hpt12 i ho hm
  obtain ⟨same23, eq23⟩ := hpt23 i hm hn
  refine ⟨sameImmutableFields_trans same23 same12, ?_⟩
  intro hne
  have h2 : l2.get ⟨i, hm⟩ = l1.get ⟨i, ho⟩ := eq12 hne
  have hne2 : (l2.get ⟨i, hm⟩).id ≠ targetId := by rw [h2]; exact hne
  rw [eq23 hne2, h2]

/-- The update-mode frame of `_getAIResponse`: with `aiMessageIdToUpdate`
present, every execution path (guard return, success, any failure) leaves
the message buffer unchanged except possibly the content, timestamp and
error flag of the targeted message. -/
theorem getAIResponse_update_frame (userMessageContent : String)
    (currentUser : Option String) (sessionId : String) (docs notes : List String)
    (aiMessageId : String) (env : AIEnv) (st : AppState) :
    onlyTargetChanged aiMessageId st.chatMessages
      ((getAIResponse userMessageContent currentUser sessionId docs notes
        (some aiMessageId) env st).state.chatMessages) := by
  obtain ⟨io, udb, ins, fid, now⟩ := env
  unfold getAIResponse
  split
  · exact onlyTargetChanged_refl _ _
  · cases io with
    | failure m => exact onlyTargetChanged_update _ _ _ _ _
    | success resp =>
      by_cases hresp : resp = ""
      · subst hresp
        exact onlyTargetChanged_update _ _ _ _ _
      · dsimp only
        rw [if_neg hresp]
        cases udb with
        | false => exact onlyTargetChanged_update _ _ _ _ _
        | true => exact onlyTargetChanged_update _ _ _ _ _

/-- External results consumed by one `createNewChatSession` call: the
row returned by the `chat_sessions` insert (`none` models an insert error
or missing data, both caught and returning null), and the outcome of the
session reload that follows. -/
structure CreateSessionEnv where
  insertedSession : Option ChatSession
  reloadResult : Except String (List ChatSession)
deriving Repr

/-- The `createNewChatSession` callback: inserts a session row, resets
the pagination counter, reloads the session list, selects the new session
and clears the message buffer. Returns the new session id (or `none`).
`reloadCount` is the `chatSessionsLoadedCount` captured by the
`loadChatSessions` closure in scope at this render. -/
def createNewChatSession (user : Option String) (reloadCount : Nat)
    (env : CreateSessionEnv) (st : AppState) : Option String × AppState :=
  match user with
  | none => (none, st)
  | some _ =>
    match env.insertedSession with
    | none => (none, st)
    | some newSession =>
      let st1 := { st with chatSessionsLoadedCount := CHAT_SESSIONS_PER_PAGE }
      let st2 := loadChatSessions user reloadCount env.reloadResult st1
      let st3 := { st2 with
        activeChatSessionId := some newSession.id
        chatMessages := []
        hasMoreMessages := false }
      (some newSession.id, st3)

/-- The `deleteChatSession` callback: deletes the row (`deleteOk` is the
write outcome; an error is caught and leaves the state unchanged), resets
pagination and reloads the list, then — if the deleted session was active —
re-selects the most recent remaining session from the list captured by
the closure, or clears the selection and the message buffer. -/
def deleteChatSession (user : Option String) (sessionId : String) (deleteOk : Bool)
    (reloadCount : Nat) (reloadResult : Except String (List ChatSession))
    (st : AppState) : AppState :=
  match user with
  | none => st
  | some _ =>
    if deleteOk then
      let oldSessions := st.chatSessions
      let st1 := { st with chatSessionsLoadedCount := CHAT_SESSIONS_PER_PAGE }
      let st2 := loadChatSessions user reloadCount reloadResult st1
      if st2.activeChatSessionId = some sessionId then
        if oldSessions.length > 1 then
          let remainingSessions := oldSessions.filter (fun s => s.id ≠ sessionId)
          match sortSessionsByLastMessageDesc remainingSessions with
          | mostRecent :: _ => { st2 with activeChatSessionId := some mostRecent.id }
          | [] =>
            { st2 with activeChatSessionId := none, chatMessages := [],
                       hasMoreMessages := false }
        else
          { st2 with activeChatSessionId := none, chatMessages := [],
                     hasMoreMessages := false }
      else st2
    else st

/-- External results consumed by one `handleSubmit` call: the
`supabase.auth.getUser()` result, the create-session results (used only
when no session is active), the `chat_messages` insert result for the
user row (id and timestamp echoed by the database; `none` models an
insert error), and the `_getAIResponse` environment. -/
structure SubmitEnv where
  authUser : Option String
  createEnv : CreateSessionEnv
  userMessageInsert : Option (String × Nat)
  aiEnv : AIEnv
deriving Repr

/-- The `handleSubmit` callback. The guard rejects a submission with no
trimmed text, no attachments and no image, or one arriving while
`isAILoading` or `isSubmittingUserMessage` is set. Otherwise the
"submitting" flag is set, the session is resolved (creating one if
needed), the user message is inserted and appended, `_getAIResponse` runs,
and the `finally` block clears the "submitting" flag on every path. -/
def handleSubmit (messageContent : String)
    (attachedDocumentIds attachedNoteIds : Option (List String))
    (imageUrl imageMimeType : Option String)
    (env : SubmitEnv) (st : AppState) : AIRunResult :=
  if (messageContent.trim = "" ∧ attachedDocumentIds.getD [] = []
        ∧ attachedNoteIds.getD [] = [] ∧ imageUrl = none)
      ∨ st.isAILoading ∨ st.isSubmittingUserMessage then
    { state := st, invokedWith := none }
  else
    let trimmedMessage := messageContent.trim
    let st1 := { st with isSubmittingUserMessage := true }
    let tryResult : AIRunResult :=
      match env.authUser with
      | none => { state := st1, invokedWith := none }
      | some _ =>
        let sessionAndState : Option String × AppState :=
          match st1.activeChatSessionId with
          | some sid => (some sid, st1)
          | none => createNewChatSession env.authUser st1.chatSessionsLoadedCount
              env.createEnv st1
        match sessionAndState with
        | (none, st2) => { state := st2, invokedWith := none }
        | (some currentSessionId, st2) =>
          let finalAttachedDocumentIds := attachedDocumentIds.getD []
          let finalAttachedNoteIds := attachedNoteIds.getD []
          let st3 := { st2 with selectedDocumentIds := finalAttachedDocumentIds }
          match env.userMessageInsert with
          | none => { state := st3, invokedWith := none }
          | some rowIdTimestamp =>
            let newUserMessage : Message :=
              { id := rowIdTimestamp.1
                content := trimmedMessage
                role := "user"
                timestamp := rowIdTimestamp.2
                isError := none
                attachedDocumentIds := some finalAttachedDocumentIds
                attachedNoteIds := some finalAttachedNoteIds
                imageUrl := imageUrl
                imageMimeType := imageMimeType
                originalUserMessageContent := none }
            let st4 := { st3 with chatMessages := st3.chatMessages ++ [newUserMessage] }
            getAIResponse trimmedMessage env.authUser currentSessionId
              finalAttachedDocumentIds finalAttachedNoteIds none env.aiEnv st4
    { state := { tryResult.state with isSubmittingUserMessage := false }
      invokedWith := tryResult.invokedWith }

/-- Sample string of length 2001, used to witness the truncation bound. -/
def sampleLongString : String := String.mk (List.replicate 2001 'a')

theorem length_take_eq (s : String) (n : Nat) : (s.take n).length = min n s.length := by
  rw [String.take_eq]
  exact List.length_take n s.data

/-- Claim C4: the content field that `buildRichContext` includes for a
document is at most 2000 characters plus the ellipsis marker, and inputs
longer than 2000 characters are cut to exactly the first 2000 characters
followed by the marker; for a note the bound is 1500. -/
theorem c4_context_truncation_bounds (s : String) :
    (truncate2000 s).length ≤ 2000 + "...".length ∧
    (s.length > 2000 → truncate2000 s = s.take 2000 ++ "...") ∧
    (truncate1500 s).length ≤ 1500 + "...".length ∧
    (s.length > 1500 → truncate1500 s = s.take 1500 ++ "...") := by
  refine ⟨?_, ?_, ?_, ?_⟩
  · unfold truncate2000
    split
    · rw [String.length_append, length_take_eq]
      omega
    · show s.length ≤ 2000 + "...".length
      omega
  · intro h
    unfold truncate2000
    rw [if_pos h]
  · unfold truncate1500
    split
    · rw [String.length_append, length_take_eq]
      omega
    · show s.length ≤ 1500 + "...".length
      omega
  · intro h
    unfold truncate1500
    rw [if_pos h]

/-- Witness for C4 at a concrete 2001-character input. -/
theorem c4_context_truncation_bounds_witness :
    sampleLongString.length > 2000 ∧
    (truncate2000 sampleLongString).length ≤ 2000 + "...".length ∧
    truncate2000 sampleLongString = sampleLongString.take 2000 ++ "..." ∧
    (truncate1500 sampleLongString).length ≤ 1500 + "...".length ∧
    truncate1500 sampleLongString = sampleLongString.take 1500 ++ "..." := by
  have hlen : sampleLongString.length > 2000 := by
    show (List.replicate 2001 'a').length > 2000
    rw [List.length_replicate]
    omega
  have h := c4_context_truncation_bounds sampleLongString
  exact ⟨hlen, h.1, h.2.1 hlen, h.2.2.1, h.2.2.2 (by omega)⟩

/-- Claim C9: `buildRichContext` is a deterministic pure function of its
four inputs: equal inputs give equal output strings (in this embedding it
is a total function with no other state, so it can mutate nothing). -/
theorem c9_buildRichContext_deterministic
    (d1 d2 n1 n2 : List String) (ad1 ad2 : List AppDocument) (an1 an2 : List Note)
    (hd : d1 = d2) (hn : n1 = n2) (had : ad1 = ad2) (han : an1 = an2) :
    buildRichContext d1 n1 ad1 an1 = buildRichContext d2 n2 ad2 an2 := by
  rw [hd, hn, had, han]

/-- Witness for C9 at concrete inputs. -/
theorem c9_buildRichContext_deterministic_witness :
    buildRichContext ["d1"] [] [] [] = buildRichContext ["d1"] [] [] [] :=
  c9_buildRichContext_deterministic ["d1"] ["d1"] [] [] [] [] [] [] rfl rfl rfl rfl

/-- Claim C8: a session-list load sets the sessions "has more" flag true
exactly when the returned row count equals the requested size (the running
counter, initially `CHAT_SESSIONS_PER_PAGE = 10`), and a message-page load
sets the "has more older" flag true exactly when the returned row count
equals `CHAT_MESSAGES_PER_PAGE = 20`. -/
theorem c8_has_more_flags (u : String) (requestedCount : Nat) (sid : String)
    (sessionRows : List ChatSession) (messageRows : List MessageRow) (st : AppState) :
    ((loadChatSessions (some u) requestedCount (Except.ok sessionRows) st).hasMoreChatSessions
        = true ↔ sessionRows.length = requestedCount) ∧
    ((loadSessionMessages (some u) sid (Except.ok messageRows) st).hasMoreMessages
        = true ↔ messageRows.length = CHAT_MESSAGES_PER_PAGE) ∧
    CHAT_SESSIONS_PER_PAGE = 10 ∧ CHAT_MESSAGES_PER_PAGE = 20 := by
  refine ⟨?_, ?_, rfl, rfl⟩
  · show (sessionRows.length == requestedCount) = true ↔ _
    simp [beq_iff_eq]
  · show (messageRows.length == CHAT_MESSAGES_PER_PAGE) = true ↔ _
    simp [beq_iff_eq]

/-- Claim C10: when the fetch inside `loadSessionMessages` fails, the
message buffer is set to the empty list instead of keeping the previously
displayed messages. -/
theorem c10_failed_load_clears_messages (u sid e : String) (st : AppState) :
    (loadSessionMessages (some u) sid (Except.error e) st).chatMessages = [] := rfl

/-- Claim C2: every failed AI call in "new message" mode appends exactly
one additional assistant message, flagged `isError = true` and carrying
the original user text in `originalUserMessageContent`; the rest of the
message buffer (the prefix) and the session list are untouched by the
failure path. -/
theorem c2_failed_new_message_appends_single_error
    (userMessageContent uid sessionId : String) (hsid : sessionId ≠ "")
    (attachedDocumentIds attachedNoteIds : List String)
    (env : AIEnv) (hfail : newMessageCallFails env) (st : AppState) :
    ∃ errorMessage : Message,
      (getAIResponse userMessageContent (some uid) sessionId attachedDocumentIds
          attachedNoteIds none env st).state.chatMessages
        = st.chatMessages ++ [errorMessage] ∧
      errorMessage.role = "assistant" ∧
      errorMessage.isError = some true ∧
      errorMessage.originalUserMessageContent = some userMessageContent ∧
      (getAIResponse userMessageContent (some uid) sessionId attachedDocumentIds
          attachedNoteIds none env st).state.chatSessions = st.chatSessions := by
  obtain ⟨io, udb, ins, fid, now⟩ := env
  have hguard : ¬ (some uid = none ∨ sessionId = "") := by simp [hsid]
  unfold getAIResponse
  rw [if_neg hguard]
  cases io with
  | failure m =>
    exact ⟨_, rfl, rfl, rfl, rfl, rfl⟩
  | success resp =>
    by_cases hresp : resp = ""
    · subst hresp
      exact ⟨_, rfl, rfl, rfl, rfl, rfl⟩
    · have hins : ins = none := by
        rcases hfail with h | h
        · exact absurd h hresp
        · exact h
      subst hins
      dsimp only
      rw [if_neg hresp]
      exact ⟨_, rfl, rfl, rfl, rfl, rfl⟩

/-- Sample environment of a remote AI failure, for the C2 witness. -/
def sampleFailEnv : AIEnv :=
  { invokeOutcome := InvokeOutcome.failure "boom"
    updateDbOk := true
    insertResult := none
    freshErrorId := "err-1"
    now := 5 }

/-- Witness for C2: a concrete failed invocation from the initial state. -/
theorem c2_failed_new_message_appends_single_error_witness :
    ∃ errorMessage : NoteMind.Message,
      (getAIResponse "hello" (some "user-1") "session-1" [] []
          none sampleFailEnv initialAppState).state.chatMessages
        = initialAppState.chatMessages ++ [errorMessage] ∧
      errorMessage.role = "assistant" ∧
      errorMessage.isError = some true ∧
      errorMessage.originalUserMessageContent = some "hello" ∧
      (getAIResponse "hello" (some "user-1") "session-1" [] []
          none sampleFailEnv initialAppState).state.chatSessions
        = initialAppState.chatSessions :=
  c2_failed_new_message_appends_single_error "hello" "user-1" "session-1"
    (by decide) [] [] sampleFailEnv (by constructor) initialAppState

/-- Claim C3: a regenerate or retry invocation targeting assistant message
id M changes, on success or on failure, at most the content, timestamp and
error flag of the message with id M; every other message is unchanged and
every other field of every message (id, role, attachment ids, image
fields, original-user-content) is unchanged. For regeneration the target
is the most recent assistant message; for retry it is the failed message
id passed in. -/
theorem c3_regenerate_retry_frame
    (lastUserMessageContent originalUserMessageContent failedAiMessageId : String)
    (user activeId : Option String) (env : AIEnv) (st : AppState)
    (targetMessage : Message)
    (htarget : lastAssistant st.chatMessages = some targetMessage) :
    onlyTargetChanged targetMessage.id st.chatMessages
      ((handleRegenerateResponse lastUserMessageContent user activeId env
        st).state.chatMessages) ∧
    onlyTargetChanged failedAiMessageId st.chatMessages
      ((handleRetryFailedMessage originalUserMessageContent failedAiMessageId user
        activeId env st).state.chatMessages) := by
  constructor
  · unfold handleRegenerateResponse
    cases user with
    | none => exact onlyTargetChanged_refl _ _
    | some uid =>
      cases activeId with
      | none => exact onlyTargetChanged_refl _ _
      | some sessionId =>
        rw [htarget]
        cases hlu : lastUser st.chatMessages with
        | none => exact onlyTargetChanged_refl _ _
        | some lastUserMessage =>
          dsimp only
          exact onlyTargetChanged_trans
            (onlyTargetChanged_update targetMessage.id "AI is thinking..." env.now
              (some false) st.chatMessages)
            (getAIResponse_update_frame lastUserMessageContent (some uid) sessionId
              (lastUserMessage.attachedDocumentIds.getD [])
              (lastUserMessage.attachedNoteIds.getD [])
              targetMessage.id env _)
  · unfold handleRetryFailedMessage
    cases user with
    | none => exact onlyTargetChanged_refl _ _
    | some uid =>
      cases activeId with
      | none => exact onlyTargetChanged_refl _ _
      | some sessionId =>
        cases hlu : lastUserWithContent originalUserMessageContent st.chatMessages with
        | none => exact onlyTargetChanged_refl _ _
        | some lastUserMessage =>
          dsimp only
          exact onlyTargetChanged_trans
            (onlyTargetChanged_update failedAiMessageId "AI is thinking..." env.now
              (some false) st.chatMessages)
            (getAIResponse_update_frame originalUserMessageContent (some uid) sessionId
              (lastUserMessage.attachedDocumentIds.getD [])
              (lastUserMessage.attachedNoteIds.getD [])
              failedAiMessageId env _)

/-- Sample user message for the claim witnesses. -/
def sampleUserMessage : Message :=
  { id := "m-user"
    content := "hi"
    role := "user"
    timestamp := 1
    isError := none
    attachedDocumentIds := some []
    attachedNoteIds := some []
    imageUrl := none
    imageMimeType := none
    originalUserMessageContent := none }

/-- Sample assistant message for the claim witnesses. -/
def sampleAssistantMessage : Message :=
  { id := "m-assistant"
    content := "hello there"
    role := "assistant"
    timestamp := 2
    isError := some false
    attachedDocumentIds := none
    attachedNoteIds := none
    imageUrl := none
    imageMimeType := none
    originalUserMessageContent := none }

/-- Sample state with one user and one assistant message. -/
def sampleChatState : AppState :=
  { initialAppState with
    chatMessages := [sampleUserMessage, sampleAssistantMessage]
    activeChatSessionId := some "session-1" }

/-- Witness for C3 at a concrete two-message buffer. -/
theorem c3_regenerate_retry_frame_witness :
    onlyTargetChanged sampleAssistantMessage.id sampleChatState.chatMessages
      ((handleRegenerateResponse "hi" (some "user-1") (some "session-1") sampleFailEnv
        sampleChatState).state.chatMessages) ∧
    onlyTargetChanged "m-assistant" sampleChatState.chatMessages
      ((handleRetryFailedMessage "hi" "m-assistant" (some "user-1") (some "session-1")
        sampleFailEnv sampleChatState).state.chatMessages) :=
  c3_regenerate_retry_frame "hi" "hi" "m-assistant" (some "user-1") (some "session-1")
    sampleFailEnv sampleChatState sampleAssistantMessage (by decide)

/-- Claim C7: deleting the currently active session when it is the only
session in the local list leaves no active session id, an empty message
buffer, and the "has more older messages" flag false. -/
theorem c7_delete_only_active_session (u : String) (s : ChatSession)
    (reloadCount : Nat) (reloadResult : Except String (List ChatSession)) (st : AppState)
    (hsessions : st.chatSessions = [s]) (hactive : st.activeChatSessionId = some s.id) :
    (deleteChatSession (some u) s.id true reloadCount reloadResult st).activeChatSessionId
        = none ∧
    (deleteChatSession (some u) s.id true reloadCount reloadResult st).chatMessages = [] ∧
    (deleteChatSession (some u) s.id true reloadCount reloadResult st).hasMoreMessages
        = false := by
  unfold deleteChatSession
  rw [if_pos rfl]
  have hactive2 : (loadChatSessions (some u) reloadCount reloadResult
      { st with chatSessionsLoadedCount := CHAT_SESSIONS_PER_PAGE }).activeChatSessionId
      = some s.id := by
    unfold loadChatSessions
    cases reloadResult with
    | ok data => exact hactive
    | error e => exact hactive
  dsimp only
  rw [if_pos hactive2]
  have hone : ¬ (st.chatSessions.length > 1) := by
    rw [hsessions]
    simp
  rw [if_neg hone]
  exact ⟨rfl, rfl, rfl⟩

/-- Sample chat session for the claim witnesses. -/
def sampleSession : ChatSession :=
  { id := "session-1"
    title := "New Chat"
    created_at := 1
    updated_at := 1
    last_message_at := 1
    document_ids := [] }

/-- Witness for C7: deleting the only, active, session concretely. -/
theorem c7_delete_only_active_session_witness :
    (deleteChatSession (some "user-1") "session-1" true CHAT_SESSIONS_PER_PAGE
        (Except.ok [])
        { initialAppState with chatSessions := [sampleSession],
                               activeChatSessionId := some "session-1" }).activeChatSessionId
        = none ∧
    (deleteChatSession (some "user-1") "session-1" true CHAT_SESSIONS_PER_PAGE
        (Except.ok [])
        { initialAppState with chatSessions := [sampleSession],
                               activeChatSessionId := some "session-1" }).chatMessages = [] ∧
    (deleteChatSession (some "user-1") "session-1" true CHAT_SESSIONS_PER_PAGE
        (Except.ok [])
        { initialAppState with chatSessions := [sampleSession],
                               activeChatSessionId := some "session-1" }).hasMoreMessages
        = false :=
  c7_delete_only_active_session "user-1" sampleSession CHAT_SESSIONS_PER_PAGE
    (Except.ok [])
    { initialAppState with chatSessions := [sampleSession],
                           activeChatSessionId := some "session-1" }
    rfl rfl

/-- Flag behaviour of `_getAIResponse`: it never touches the submitting
flag, its final state always has `isAILoading = false` when the caller
started with it false (it sets the flag at entry and clears it in the
`finally` block), and when the remote AI invocation happens it happens
with `isAILoading = true` and the submitting flag of the caller. -/
theorem getAIResponse_flags (userMessageContent : String) (currentUser : Option String)
    (sessionId : String) (docs notes : List String) (aiMessageIdToUpdate : Option String)
    (env : AIEnv) (st : AppState) :
    (getAIResponse userMessageContent currentUser sessionId docs notes
        aiMessageIdToUpdate env st).state.isSubmittingUserMessage
      = st.isSubmittingUserMessage ∧
    (st.isAILoading = false →
      (getAIResponse userMessageContent currentUser sessionId docs notes
        aiMessageIdToUpdate env st).state.isAILoading = false) ∧
    ((getAIResponse userMessageContent currentUser sessionId docs notes
        aiMessageIdToUpdate env st).invokedWith = none ∨
     (getAIResponse userMessageContent currentUser sessionId docs notes
        aiMessageIdToUpdate env st).invokedWith
      = some (true, st.isSubmittingUserMessage)) := by
  obtain ⟨io, udb, ins, fid, now⟩ := env
  unfold getAIResponse
  split
  · exact ⟨rfl, fun h => h, Or.inl rfl⟩
  · refine ⟨?_, fun _ => rfl, Or.inr rfl⟩
    cases io with
    | failure m =>
      cases aiMessageIdToUpdate <;> rfl
    | success resp =>
      by_cases hresp : resp = ""
      · subst hresp
        cases aiMessageIdToUpdate <;> rfl
      · dsimp only
        rw [if_neg hresp]
        cases aiMessageIdToUpdate with
        | some aiMessageId => cases udb <;> rfl
        | none => cases ins <;> rfl

/-- Claim C6: the submitting flag is set before the submission and the AI
loading flag before the remote AI call — whenever the call is performed
both flags are true — and each flag is cleared on every exit path, so a
completed `handleSubmit` invocation from an idle state ends with both
flags false. -/
theorem c6_submit_flags (messageContent : String)
    (attachedDocumentIds attachedNoteIds : Option (List String))
    (imageUrl imageMimeType : Option String) (env : SubmitEnv) (st : AppState)
    (h1 : st.isAILoading = false) (h2 : st.isSubmittingUserMessage = false) :
    (handleSubmit messageContent attachedDocumentIds attachedNoteIds imageUrl
        imageMimeType env st).state.isAILoading = false ∧
    (handleSubmit messageContent attachedDocumentIds attachedNoteIds imageUrl
        imageMimeType env st).state.isSubmittingUserMessage = false ∧
    ((handleSubmit messageContent attachedDocumentIds attachedNoteIds imageUrl
        imageMimeType env st).invokedWith = none ∨
     (handleSubmit messageContent attachedDocumentIds attachedNoteIds imageUrl
        imageMimeType env st).invokedWith = some (true, true)) := by
  obtain ⟨au, ⟨insSess, reloadRes⟩, umi, aiEnv⟩ := env
  unfold handleSubmit
  split
  · exact ⟨h1, h2, Or.inl rfl⟩
  · dsimp only
    cases au with
    | none => exact ⟨h1, rfl, Or.inl rfl⟩
    | some uid =>
      cases hact : st.activeChatSessionId with
      | some sid =>
        cases umi with
        | none => exact ⟨h1, rfl, Or.inl rfl⟩
        | some rowIdTimestamp =>
          refine ⟨(getAIResponse_flags _ _ _ _ _ _ _ _).2.1 h1, rfl, ?_⟩
          rcases (getAIResponse_flags _ _ _ _ _ _ _ _).2.2 with h | h
          · exact Or.inl h
          · exact Or.inr h
      | none =>
        cases insSess with
        | none => exact ⟨h1, rfl, Or.inl rfl⟩
        | some newSession =>
          cases reloadRes with
          | ok data =>
            cases umi with
            | none => exact ⟨h1, rfl, Or.inl rfl⟩
            | some rowIdTimestamp =>
              refine ⟨(getAIResponse_flags _ _ _ _ _ _ _ _).2.1 h1, rfl, ?_⟩
              rcases (getAIResponse_flags _ _ _ _ _ _ _ _).2.2 with h | h
              · exact Or.inl h
              · exact Or.inr h
          | error e =>
            cases umi with
            | none => exact ⟨h1, rfl, Or.inl rfl⟩
            | some rowIdTimestamp =>
              refine ⟨(getAIResponse_flags _ _ _ _ _ _ _ _).2.1 h1, rfl, ?_⟩
              rcases (getAIResponse_flags _ _ _ _ _ _ _ _).2.2 with h | h
              · exact Or.inl h
              · exact Or.inr h

/-- Sample submit environment for the C6 witness. -/
def sampleSubmitEnv : SubmitEnv :=
  { authUser := some "user-1"
    createEnv := { insertedSession := some sampleSession, reloadResult := Except.ok [sampleSession] }
    userMessageInsert := some ("m-user", 3)
    aiEnv := sampleFailEnv }

/-- Witness for C6 at a concrete submission from the idle initial state. -/
theorem c6_submit_flags_witness :
    (handleSubmit "hello" none none none none sampleSubmitEnv
        initialAppState).state.isAILoading = false ∧
    (handleSubmit "hello" none none none none sampleSubmitEnv
        initialAppState).state.isSubmittingUserMessage = false ∧
    ((handleSubmit "hello" none none none none sampleSubmitEnv
        initialAppState).invokedWith = none ∨
     (handleSubmit "hello" none none none none sampleSubmitEnv
        initialAppState).invokedWith = some (true, true)) :=
  c6_submit_flags "hello" none none none none sampleSubmitEnv initialAppState rfl rfl

/-- Note-editor state touched by the audio job polling effect.
`intervalActive` models whether the 5-second `setInterval` handle is
live (`clearInterval` sets it false). -/
structure NoteEditorState where
  audioProcessingJobId : Option String
  intervalActive : Bool
  isProcessingAudio : Bool
  isGeneratingAudioNote : Bool
  isGeneratingAudioSummary : Bool
  isTranslatingAudio : Bool
  isAudioOptionsVisible : Bool
  content : String
  translatedContent : Option String
deriving Repr, DecidableEq

/-- Result observed by one poll of the `audio_processing_results` row:
either the read failed (query error, thrown), or it returned the row. -/
inductive PollReadResult where
  | failure (message : String)
  | row (status : String) (transcript : Option String) (summary : Option String)
      (translated_content : Option String) (error_message : Option String)
      (document_id : Option String)
deriving Repr, DecidableEq

/-- JavaScript `s || dflt` for a nullable string. -/
def jsOrElse (o : Option String) (dflt : String) : String :=
  match o with
  | some s => if s = "" then dflt else s
  | none => dflt

/-- The flag/interval clearing common to the `completed`, `error` and
catch branches of `pollJobStatus`. -/
def clearAudioJob (s : NoteEditorState) : NoteEditorState :=
  { s with
    audioProcessingJobId := none
    intervalActive := false
    isProcessingAudio := false
    isGeneratingAudioNote := false
    isGeneratingAudioSummary := false
    isTranslatingAudio := false
    isAudioOptionsVisible := false }

/-- One execution of the `pollJobStatus` callback of the NoteEditor
polling effect: early return when no job id or no user profile; on
`completed`, copy the transcript/translation and clear everything; on
`error`, clear everything; on a read failure (catch), clear everything;
on `processing` (or any other status), refresh the toast only. -/
def pollJobStatus (userProfile : Option String) (readResult : PollReadResult)
    (s : NoteEditorState) : NoteEditorState :=
  match s.audioProcessingJobId with
  | none => s
  | some _ =>
    match userProfile with
    | none => s
    | some _ =>
      match readResult with
      | PollReadResult.failure _ => clearAudioJob s
      | PollReadResult.row status transcript _ translated _ _ =>
        if status = "completed" then
          { clearAudioJob s with
            content := jsOrElse transcript "No transcription available."
            translatedContent := if optTruthy translated then translated else none }
        else if status = "error" then clearAudioJob s
        else s

/-- A run of subsequent interval ticks: each listed read result is
delivered only if the interval is still live (a cleared interval fires no
callback); returns the final state and the number of ticks that actually
executed. -/
def pollTicks (userProfile : Option String) :
    NoteEditorState → List PollReadResult → NoteEditorState × Nat
  | s, [] => (s, 0)
  | s, r :: rs =>
    if s.intervalActive then
      match pollTicks userProfile (pollJobStatus userProfile r s) rs with
      | (sf, n) => (sf, n + 1)
    else (s, 0)

/-- A poll observation that the code treats as terminal: a failed status
read, or a row whose status is `completed` or `error`. -/
def terminalRead (r : PollReadResult) : Bool :=
  match r with
  | PollReadResult.failure _ => true
  | PollReadResult.row status _ _ _ _ _ => status == "completed" || status == "error"

/-- Claim C5: once a poll for a job observes a terminal status
(`completed` or `error`) or the status read fails, the interval is
cleared and the job id is set to null, and no subsequent tick sequence
executes any further poll or changes the state, so polling never resumes
for that job id. -/
theorem c5_poll_terminal_stops (up jobId : String) (r : PollReadResult)
    (s : NoteEditorState) (hjob : s.audioProcessingJobId = some jobId)
    (hterm : terminalRead r = true) :
    (pollJobStatus (some up) r s).intervalActive = false ∧
    (pollJobStatus (some up) r s).audioProcessingJobId = none ∧
    ∀ rs : List PollReadResult,
      pollTicks (some up) (pollJobStatus (some up) r s) rs
        = (pollJobStatus (some up) r s, 0) := by
  have hstep : (pollJobStatus (some up) r s).intervalActive = false ∧
      (pollJobStatus (some up) r s).audioProcessingJobId = none := by
    unfold pollJobStatus
    rw [hjob]
    cases r with
    | failure m => exact ⟨rfl, rfl⟩
    | row status transcript summary translated errMsg docId =>
      unfold terminalRead at hterm
      dsimp only
      by_cases hc : status = "completed"
      · rw [if_pos hc]
        exact ⟨rfl, rfl⟩
      · rw [if_neg hc]
        have he : status = "error" := by
          rcases or_iff_not_imp_left.mp (by simpa using hterm) with h
          · exact h (by simpa using hc)
        rw [if_pos he]
        exact ⟨rfl, rfl⟩
  refine ⟨hstep.1, hstep.2, ?_⟩
  intro rs
  cases rs with
  | nil => rfl
  | cons r2 rs2 =>
    unfold pollTicks
    rw [hstep.1]
    simp

/-- Witness for C5: a concrete `completed` observation mid-processing. -/
theorem c5_poll_terminal_stops_witness :
    (pollJobStatus (some "user-1")
        (PollReadResult.row "completed" (some "text") none none none none)
        { audioProcessingJobId := some "job-1", intervalActive := true,
          isProcessingAudio := true, isGeneratingAudioNote := true,
          isGeneratingAudioSummary := false, isTranslatingAudio := false,
          isAudioOptionsVisible := true, content := "",
          translatedContent := none }).intervalActive = false ∧
    (pollJobStatus (some "user-1")
        (PollReadResult.row "completed" (some "text") none none none none)
        { audioProcessingJobId := some "job-1", intervalActive := true,
          isProcessingAudio := true, isGeneratingAudioNote := true,
          isGeneratingAudioSummary := false, isTranslatingAudio := false,
          isAudioOptionsVisible := true, content := "",
          translatedContent := none }).audioProcessingJobId = none ∧
    ∀ rs : List PollReadResult,
      pollTicks (some "user-1")
          (pollJobStatus (some "user-1")
            (PollReadResult.row "completed" (some "text") none none none none)
            { audioProcessingJobId := some "job-1", intervalActive := true,
              isProcessingAudio := true, isGeneratingAudioNote := true,
              isGeneratingAudioSummary := false, isTranslatingAudio := false,
              isAudioOptionsVisible := true, content := "",
              translatedContent := none }) rs
        = (pollJobStatus (some "user-1")
            (PollReadResult.row "completed" (some "text") none none none none)
            { audioProcessingJobId := some "job-1", intervalActive := true,
              isProcessingAudio := true, isGeneratingAudioNote := true,
              isGeneratingAudioSummary := false, isTranslatingAudio := false,
              isAudioOptionsVisible := true, content := "",
              translatedContent := none }, 0) :=
  c5_poll_terminal_stops "user-1" "job-1"
    (PollReadResult.row "completed" (some "text") none none none none)
    { audioProcessingJobId := some "job-1", intervalActive := true,
      isProcessingAudio := true, isGeneratingAudioNote := true,
      isGeneratingAudioSummary := false, isTranslatingAudio := false,
      isAudioOptionsVisible := true, content := "",
      translatedContent := none }
    rfl (by decide)

/-- Rows ordered by timestamp descending, as the message queries request
(ordered by timestamp descending). -/
abbrev rowsSortedDesc (data : List MessageRow) : Prop :=
  data.Pairwise (fun a b => b.timestamp ≤ a.timestamp)

/-- Contract of the initial message fetch of a session: when it succeeds
it returns rows of the table of that session (a sublist of the table `db`),
ordered by timestamp descending. -/
def okRowsFrom (db : List MessageRow) (res : Except String (List MessageRow)) : Prop :=
  ∀ data, res = Except.ok data → List.Sublist data db ∧ rowsSortedDesc data

/-- Contract of the "older" fetch: for a cutoff `ts` it returns rows of
the table, ordered descending, all strictly older than `ts`. -/
def okOlderRowsFrom (db : List MessageRow)
    (fetchOlder : Nat → Except String (List MessageRow)) : Prop :=
  ∀ ts data, fetchOlder ts = Except.ok data →
    List.Sublist data db ∧ rowsSortedDesc data ∧ ∀ r ∈ data, r.timestamp < ts

/-- States reachable by one `loadSessionMessages` call followed by any
number of `handleLoadOlderChatMessages` calls, each fetch satisfying its
contract against the fixed table `db`. -/
inductive MessagesReach (db : List MessageRow) (u sid : String) : AppState → Prop where
  | load (st : AppState) (res : Except String (List MessageRow))
      (hres : okRowsFrom db res) :
      MessagesReach db u sid (loadSessionMessages (some u) sid res st)
  | older (st : AppState) (fetchOlder : Nat → Except String (List MessageRow))
      (hst : MessagesReach db u sid st) (hfetch : okOlderRowsFrom db fetchOlder) :
      MessagesReach db u sid (handleLoadOlderChatMessages (some u) fetchOlder st)

/-- Buffer invariant: chronological (non-decreasing timestamp) order, no
duplicate ids, and every message backed by a table row with its id and
timestamp. -/
def bufferWellFormed (db : List MessageRow) (buf : List Message) : Prop :=
  buf.Pairwise (fun a b => a.timestamp ≤ b.timestamp) ∧
  (buf.map Message.id).Nodup ∧
  ∀ m ∈ buf, ∃ r ∈ db, r.id = m.id ∧ r.timestamp = m.timestamp

theorem formattedBatch_wellFormed (db data : List MessageRow)
    (hdb : (db.map MessageRow.id).Nodup)
    (hsub : List.Sublist data db) (hsort : rowsSortedDesc data) :
    bufferWellFormed db ((data.map formatMessage).reverse) := by
  refine ⟨?_, ?_, ?_⟩
  · rw [List.pairwise_reverse]
    exact hsort.map formatMessage (fun a b h => h)
  · rw [List.map_reverse, List.nodup_reverse, List.map_map]
    have hmaps : data.map (Message.id ∘ formatMessage) = data.map MessageRow.id := rfl
    rw [hmaps]
    exact hdb.sublist (hsub.map MessageRow.id)
  · intro m hm
    rw [List.mem_reverse, List.mem_map] at hm
    obtain ⟨r, hr, hfm⟩ := hm
    subst hfm
    exact ⟨r, hsub.subset hr, rfl, rfl⟩

theorem olderBatch_wellFormed (db data : List MessageRow) (buf : List Message)
    (hdb : (db.map MessageRow.id).Nodup)
    (hbuf : bufferWellFormed db buf)
    (hsub : List.Sublist data db) (hsort : rowsSortedDesc data)
    (m0 : Message) (rest : List Message) (hcons : buf = m0 :: rest)
    (holder : ∀ r ∈ data, r.timestamp < m0.timestamp) :
    bufferWellFormed db ((data.map formatMessage).reverse ++ buf) := by
  obtain ⟨hpair, hnodup, hmem⟩ := hbuf
  obtain ⟨hpairN, hnodupN, hmemN⟩ := formattedBatch_wellFormed db data hdb hsub hsort
  have hbufLB : ∀ m ∈ buf, m0.timestamp ≤ m.timestamp := by
    intro m hm
    rw [hcons] at hm hpair
    rcases List.mem_cons.mp hm with h | h
    · rw [h]
    · exact (List.pairwise_cons.mp hpair).1 m h
  have hnewUB : ∀ m ∈ (data.map formatMessage).reverse, m.timestamp < m0.timestamp := by
    intro m hm
    rw [List.mem_reverse, List.mem_map] at hm
    obtain ⟨r, hr, hfm⟩ := hm
    subst hfm
    exact holder r hr
  refine ⟨?_, ?_, ?_⟩
  · rw [List.pairwise_append]
    refine ⟨hpairN, hpair, ?_⟩
    intro a ha b hb
    exact le_of_lt (lt_of_lt_of_le (hnewUB a ha) (hbufLB b hb))
  · rw [List.map_append, List.nodup_append]
    refine ⟨hnodupN, hnodup, ?_⟩
    intro x hx hx2
    rw [List.mem_map] at hx hx2
    obtain ⟨a, ha, hax⟩ := hx
    obtain ⟨b, hb, hbx⟩ := hx2
    obtain ⟨ra, hra, hraid, hrats⟩ := hmemN a ha
    obtain ⟨rb, hrb, hrbid, hrbts⟩ := hmem b hb
    have hid : ra.id = rb.id := by rw [hraid, hrbid, hax, hbx]
    have hrarb : ra = rb := List.inj_on_of_nodup_map hdb hra hrb hid
    have hts : a.timestamp = b.timestamp := by rw [← hrats, ← hrbts, hrarb]
    have hlt : a.timestamp < m0.timestamp := hnewUB a ha
    have hge : m0.timestamp ≤ b.timestamp := hbufLB b hb
    omega
  · intro m hm
    rcases List.mem_append.mp hm with h | h
    · exact hmemN m h
    · exact hmem m h

theorem messagesReach_wellFormed (db : List MessageRow) (u sid : String)
    (hdb : (db.map MessageRow.id).Nodup) (st : AppState)
    (h : MessagesReach db u sid st) : bufferWellFormed db st.chatMessages := by
  induction h with
  | load st res hres =>
    unfold loadSessionMessages
    cases res with
    | ok data =>
      obtain ⟨hsub, hsort⟩ := hres data rfl
      exact formattedBatch_wellFormed db data hdb hsub hsort
    | error e =>
      refine ⟨List.Pairwise.nil, List.nodup_nil, ?_⟩
      intro m hm
      cases hm
  | older st fetchOlder hst hfetch ih =>
    unfold handleLoadOlderChatMessages
    cases hact : st.activeChatSessionId with
    | none => exact ih
    | some s0 =>
      cases hbufc : st.chatMessages with
      | nil => exact ih
      | cons m0 rest =>
        dsimp only
        cases hres : fetchOlder m0.timestamp with
        | error e => exact ih
        | ok data =>
          obtain ⟨hsub, hsort, holder⟩ := hfetch m0.timestamp data hres
          have ih2 : bufferWellFormed db (m0 :: rest) := hbufc ▸ ih
          exact olderBatch_wellFormed db data (m0 :: rest) hdb ih2 hsub hsort
            m0 rest rfl holder

/-- Claim C1: for any session, the buffer produced by a
`loadSessionMessages` followed by any number of
`handleLoadOlderChatMessages` calls — given that each fetch returns rows
of the table of that session ordered by timestamp descending and older fetches
return only rows strictly older than the cutoff — is in non-decreasing
timestamp order and has no duplicate message ids. -/
theorem c1_load_then_older_sorted_nodup (db : List MessageRow) (u sid : String)
    (hdb : (db.map MessageRow.id).Nodup) (st : AppState)
    (h : MessagesReach db u sid st) :
    st.chatMessages.Pairwise (fun a b => a.timestamp ≤ b.timestamp) ∧
    (st.chatMessages.map Message.id).Nodup :=
  ⟨(messagesReach_wellFormed db u sid hdb st h).1,
   (messagesReach_wellFormed db u sid hdb st h).2.1⟩

/-- Sample `chat_messages` row with timestamp 1. -/
def sampleRow1 : MessageRow :=
  { id := "m1"
    session_id := "session-1"
    user_id := "user-1"
    content := "first"
    role := "user"
    timestamp := 1
    is_error := false
    attached_document_ids := []
    attached_note_ids := []
    image_url := none
    image_mime_type := none }

/-- Sample `chat_messages` row with timestamp 2. -/
def sampleRow2 : MessageRow :=
  { sampleRow1 with id := "m2", content := "second", role := "assistant", timestamp := 2 }

/-- Sample `chat_messages` row with timestamp 3. -/
def sampleRow3 : MessageRow :=
  { sampleRow1 with id := "m3", content := "third", timestamp := 3 }

/-- Sample message table, newest first. -/
def sampleDb : List MessageRow := [sampleRow3, sampleRow2, sampleRow1]

/-- Sample "older" fetch over `sampleDb`: returns the rows strictly older
than the cutoff, in the descending order of the table. -/
def sampleOlderFetch : Nat → Except String (List MessageRow) :=
  fun ts => Except.ok (sampleDb.filter (fun r => r.timestamp < ts))

theorem sampleOlderFetch_contract : okOlderRowsFrom sampleDb sampleOlderFetch := by
  intro ts data hdata
  have hdb : sampleDb.Pairwise (fun a b => b.timestamp ≤ a.timestamp) := by decide
  injection hdata with hdata2
  subst hdata2
  refine ⟨List.filter_sublist _, hdb.filter _, ?_⟩
  intro r hr
  exact of_decide_eq_true (List.mem_filter.mp hr).2

/-- Witness for C1: a concrete initial page of two rows followed by one
older fetch over a three-row table. -/
theorem c1_load_then_older_sorted_nodup_witness :
    (handleLoadOlderChatMessages (some "user-1") sampleOlderFetch
        (loadSessionMessages (some "user-1") "session-1"
          (Except.ok [sampleRow3, sampleRow2]) sampleChatState)).chatMessages.Pairwise
      (fun a b => a.timestamp ≤ b.timestamp) ∧
    ((handleLoadOlderChatMessages (some "user-1") sampleOlderFetch
        (loadSessionMessages (some "user-1") "session-1"
          (Except.ok [sampleRow3, sampleRow2]) sampleChatState)).chatMessages.map
      Message.id).Nodup :=
  c1_load_then_older_sorted_nodup sampleDb "user-1" "session-1" (by decide) _
    (MessagesReach.older _ sampleOlderFetch
      (MessagesReach.load sampleChatState (Except.ok [sampleRow3, sampleRow2])
        (by
          intro data hdata
          injection hdata with hdata2
          subst hdata2
          exact ⟨by decide, by decide⟩))
      sampleOlderFetch_contract)

end NoteMind
